import Mathlib

/-!
# Shallow embedding of the tough TUF client core (src/tough/src/lib.rs)

This file embeds the metadata update state machine of the `tough` crate:
`system_time`, `check_expired`, `load_root` (root rotation loop, freeze
check, fast-forward key-rotation cleanup), `load_timestamp`,
`load_snapshot`, `load_targets`, and `Repository::read_target`.

Modelling conventions:
* Instants (`chrono::DateTime<Utc>`) are natural numbers; only their order
  matters to the code under study.
* External collaborators that live outside `lib.rs` (the `schema` signature
  verifier `verify_role`, the `fetch` bounded readers, the `url` join, the
  serde parsers and the `datastore` file I/O) are modelled from the spec as
  oracles in environment records and as explicit datastore state: a fetch
  yields either a transport-layer error, a successfully fetched document
  that fails to parse, or a parsed document; `verify_role` is an arbitrary
  boolean predicate on (verifying root payload, signed document).
* The datastore holds, for each of its four files, `none` when the file is
  absent and `some none` / `some (some v)` when it is present and fails /
  succeeds to parse.  `Datastore::create` is modelled as an infallible
  atomic replacement (spec 4.3); `Datastore::remove` may fail, governed by
  an oracle bit, and a failed removal leaves the file in place.

Every load function is state passing: it returns its `Except` result
together with the datastore state after the call, so frame effects of
failing runs are visible.
-/

namespace Tough

/-- The four top-level TUF role types (`schema::RoleType`). -/
inductive RoleType where
  | root
  | timestamp
  | snapshot
  | targets
deriving DecidableEq, Repr

/-- The structured error taxonomy of `tough::error` restricted to the
constructors reachable from the embedded functions.  `datastoreRemove`
stands for the error a failed `Datastore::remove` surfaces, and
`transportFailed`, `maxSizeExceeded`, `hashMismatch` are the errors a
bounded fetch reader can produce (they are only propagated, never
inspected, by the code under study). -/
inductive TufError where
  | verifyTrustedMetadata
  | parseMetadata (role : RoleType)
  | verifyMetadata (role : RoleType)
  | olderMetadata (role : RoleType) (currentVersion newVersion : Nat)
  | versionMismatch (role : RoleType) (fetched expected : Nat)
  | expiredMetadata (role : RoleType)
  | maxUpdatesExceeded (maxRootUpdates : Nat)
  | metaMissing (file : String) (role : RoleType)
  | systemTimeSteppedBackward (sysTime latestKnownTime : Nat)
  | joinUrl (path : String)
  | datastoreRemove (file : String)
  | transportFailed
  | maxSizeExceeded (specifier : String) (maxSize : Nat)
  | hashMismatch (specifier : String)
deriving DecidableEq, Repr

/-- A signing key (`schema::Key`).  Spec 4.6 / design notes: key equality
for rekey detection compares the whole tuple, not just the key id. -/
structure Key where
  keyId : String
  keyType : String
  scheme : String
  publicBytes : List Nat
deriving DecidableEq, Repr

/-- A signed TUF document (`schema::Signed<T>`): the payload plus opaque
signature blobs (the signatures are only ever consumed by the
`verify_role` oracle). -/
structure Signed (α : Type) where
  signed : α
  signatures : List Nat
deriving DecidableEq, Repr

/-- Root payload (`schema::Root`).  `timestampKeys` / `snapshotKeys` are
modelled from the spec: they are the key lists that
`Root::keys(RoleType::Timestamp)` / `Root::keys(RoleType::Snapshot)`
(in the `schema` module, outside `lib.rs`) collect for the role. -/
structure Root where
  version : Nat
  expires : Nat
  consistent_snapshot : Bool
  timestampKeys : List Key
  snapshotKeys : List Key
deriving DecidableEq, Repr

/-- Meta entry of the timestamp role for `snapshot.json`
(`length` and `hashes.sha256` are required there; spec 3, FileMeta). -/
structure TimestampMeta where
  version : Nat
  length : Nat
  sha256 : List Nat
deriving DecidableEq, Repr

/-- Timestamp payload (`schema::Timestamp`). -/
structure Timestamp where
  version : Nat
  expires : Nat
  meta : List (String × TimestampMeta)
deriving DecidableEq, Repr

/-- Meta entry of the snapshot role (`length` and `hashes` optional for
targets-in-snapshot; spec 3, FileMeta). -/
structure SnapshotFileMeta where
  version : Nat
  length : Option Nat
  hashes : Option (List Nat)
deriving DecidableEq, Repr

/-- Snapshot payload (`schema::Snapshot`). -/
structure Snapshot where
  version : Nat
  expires : Nat
  meta : List (String × SnapshotFileMeta)
deriving DecidableEq, Repr

/-- A target descriptor (`schema::Target`, flattened as in `tough::Target`:
the SHA-256 and the length bound). -/
structure TargetDesc where
  length : Nat
  sha256 : List Nat
deriving DecidableEq, Repr

/-- Targets payload (`schema::Targets`). -/
structure Targets where
  version : Nat
  expires : Nat
  targets : List (String × TargetDesc)
deriving DecidableEq, Repr

/-- The persistent datastore directory, file by file.  For each file,
`none` means absent, `some none` means present but unparseable as its type,
`some (some v)` means present and parsing as `v`. -/
structure Datastore where
  latestKnownTime : Option (Option Nat)
  timestampFile : Option (Option (Signed Timestamp))
  snapshotFile : Option (Option (Signed Snapshot))
  targetsFile : Option (Option (Signed Targets))
deriving DecidableEq, Repr

/-- Outcome of fetching and parsing one remote metadata document:
`fetchErr e` when the bounded fetch itself fails with `e` (transport
error, size overrun, digest mismatch), `parseErr` when bytes arrive but do
not parse as the expected role, `parsed doc` on success. -/
inductive FetchOutcome (α : Type) where
  | fetchErr (e : TufError)
  | parseErr
  | parsed (doc : α)
deriving DecidableEq, Repr

/-- `system_time` (lib.rs 294-316): sample the wall clock (`sysTime`), and
if `latest_known_time.json` is present and parses, require the sample not
to have stepped backward; then store the sample.  Returns the sample and
the datastore after the call. -/
def system_time (sysTime : Nat) (ds : Datastore) :
    (Except TufError Nat) × Datastore :=
  match ds.latestKnownTime with
  | some (some latestKnownTime) =>
    if sysTime ≥ latestKnownTime then
      (.ok sysTime, { ds with latestKnownTime := some (some sysTime) })
    else
      (.error (.systemTimeSteppedBackward sysTime latestKnownTime), ds)
  | _ => (.ok sysTime, { ds with latestKnownTime := some (some sysTime) })

/-- `check_expired` (lib.rs 318-324): the freeze check, `system_time`
strictly below the role's expiration. -/
def check_expired (sysTime : Nat) (role : RoleType) (expires : Nat)
    (ds : Datastore) : (Except TufError Unit) × Datastore :=
  match system_time sysTime ds with
  | (.error e, ds1) => (.error e, ds1)
  | (.ok t, ds1) =>
    if t < expires then (.ok (), ds1)
    else (.error (.expiredMetadata role), ds1)

/-- Environment of `load_root`: the oracles for the collaborators outside
`lib.rs`.  `fetch_root v` is the combined fetch-and-parse outcome for
`{v}.root.json`; `verify_role r doc` is the `schema` threshold signature
verifier with verifying payload `r` (modelled from the spec, 4.4);
`sysTime` is the wall-clock sample taken by the single `system_time` call
of the freeze check; `removeTimestampOk` / `removeSnapshotOk` say whether
the two `Datastore::remove` calls of step 1.9 succeed. -/
structure RootEnv where
  fetch_root : Nat → FetchOutcome (Signed Root)
  verify_role : Root → Signed Root → Bool
  sysTime : Nat
  removeTimestampOk : Bool
  removeSnapshotOk : Bool

set_option linter.unusedVariables false in
/-- The root rotation loop of `load_root` (lib.rs 374-463), starting from
trusted root `root`, with `originalVersion` the shipped root's version.
Returns the loop's result together with the number of fetch attempts the
loop performed (the instrumentation used for the termination bound).
Each iteration: fail `MaxUpdatesExceeded` unless
`version < originalVersion + maxRootUpdates`; fetch `{version+1}.root.json`
(a transport-layer failure breaks the loop normally, a parse failure is
fatal); verify the candidate under the current root's keys and under its
own keys; reject strictly older candidates; stop on an equal version; else
adopt the candidate and continue. -/
def load_root_loop (env : RootEnv) (originalVersion maxRootUpdates : Nat)
    (root : Signed Root) : (Except TufError (Signed Root)) × Nat :=
  if h1 : root.signed.version < originalVersion + maxRootUpdates then
    match env.fetch_root (root.signed.version + 1) with
    | .fetchErr _ => (.ok root, 1)
    | .parseErr => (.error (.parseMetadata .root), 1)
    | .parsed newRoot =>
      if env.verify_role root.signed newRoot then
        if env.verify_role newRoot.signed newRoot then
          if h2 : root.signed.version ≤ newRoot.signed.version then
            if h3 : root.signed.version = newRoot.signed.version then
              (.ok root, 1)
            else
              ((load_root_loop env originalVersion maxRootUpdates newRoot).1,
                (load_root_loop env originalVersion maxRootUpdates newRoot).2
                  + 1)
          else
            (.error (.olderMetadata .root root.signed.version
              newRoot.signed.version), 1)
        else
          (.error (.verifyMetadata .root), 1)
      else
        (.error (.verifyMetadata .root), 1)
  else
    (.error (.maxUpdatesExceeded maxRootUpdates), 0)
termination_by originalVersion + maxRootUpdates - root.signed.version
decreasing_by
  simp_wf
  omega

/-- The part of `load_root` after the rotation loop (lib.rs 465-495): the
freeze check (step 1.8) through `check_expired`, then the fast-forward
recovery (step 1.9): when the timestamp or snapshot key list of the
trusted root differs from the shipped root's, remove both `timestamp.json`
and `snapshot.json` from the datastore — both removals are attempted
(`let r1 = ...; let r2 = ...; r1.and(r2)?`), and a removal failure is
surfaced, `r1`'s error taking precedence. -/
def root_post_loop (env : RootEnv)
    (origTimestampKeys origSnapshotKeys : List Key) (root : Signed Root)
    (ds : Datastore) : (Except TufError (Signed Root)) × Datastore :=
  match check_expired env.sysTime .root root.signed.expires ds with
  | (.error e, ds1) => (.error e, ds1)
  | (.ok _, ds1) =>
    if origTimestampKeys ≠ root.signed.timestampKeys ∨
        origSnapshotKeys ≠ root.signed.snapshotKeys then
      let ds2 :=
        if env.removeTimestampOk then { ds1 with timestampFile := none }
        else ds1
      let ds3 :=
        if env.removeSnapshotOk then { ds2 with snapshotFile := none }
        else ds2
      if env.removeTimestampOk then
        if env.removeSnapshotOk then (.ok root, ds3)
        else (.error (.datastoreRemove ("snapshot.json")), ds3)
      else (.error (.datastoreRemove ("timestamp.json")), ds3)
    else
      (.ok root, ds1)

/-- `load_root` (lib.rs 336-496) given the already-parsed shipped trusted
root `root0` (the serde parse of the shipped bytes, which happens before
any step the claims are about, is elided): self-verify the trusted root,
run the rotation loop from it, then the post-loop freeze check and
fast-forward recovery. -/
def load_root (env : RootEnv) (maxRootUpdates : Nat) (root0 : Signed Root)
    (ds : Datastore) : (Except TufError (Signed Root)) × Datastore :=
  if env.verify_role root0.signed root0 then
    match (load_root_loop env root0.signed.version maxRootUpdates root0).1 with
    | .error e => (.error e, ds)
    | .ok root =>
      root_post_loop env root0.signed.timestampKeys root0.signed.snapshotKeys
        root ds
  else
    (.error .verifyTrustedMetadata, ds)

/-- Environment of `load_timestamp`: the fetch-and-parse outcome for
`timestamp.json`, the `verify_role` oracle for timestamp documents
(modelled from the spec, 4.4), and the wall-clock sample of the freeze
check. -/
structure TimestampEnv where
  fetch_timestamp : FetchOutcome (Signed Timestamp)
  verify_role : Root → Signed Timestamp → Bool
  sysTime : Nat

/-- `load_timestamp` (lib.rs 499-564): fetch and parse `timestamp.json`,
verify it under the trusted root, then the rollback check — if a prior
`timestamp.json` is in the datastore, parses, and verifies under the
current trusted root, require `prior.version ≤ new.version`; a prior file
that fails to parse or verify is skipped.  Then the freeze check, and
persist the new timestamp. -/
def load_timestamp (env : TimestampEnv) (root : Signed Root)
    (ds : Datastore) : (Except TufError (Signed Timestamp)) × Datastore :=
  match env.fetch_timestamp with
  | .fetchErr e => (.error e, ds)
  | .parseErr => (.error (.parseMetadata .timestamp), ds)
  | .parsed timestamp =>
    if env.verify_role root.signed timestamp then
      let rollback : Except TufError Unit :=
        match ds.timestampFile with
        | some (some old_timestamp) =>
          if env.verify_role root.signed old_timestamp then
            if old_timestamp.signed.version ≤ timestamp.signed.version then
              .ok ()
            else
              .error (.olderMetadata .timestamp old_timestamp.signed.version
                timestamp.signed.version)
          else .ok ()
        | _ => .ok ()
      match rollback with
      | .error e => (.error e, ds)
      | .ok _ =>
        match check_expired env.sysTime .timestamp timestamp.signed.expires
            ds with
        | (.error e, ds1) => (.error e, ds1)
        | (.ok _, ds1) =>
          (.ok timestamp, { ds1 with timestampFile := some (some timestamp) })
    else
      (.error (.verifyMetadata .timestamp), ds)

/-- Environment of `load_snapshot`: the fetch-and-parse outcome for the
snapshot document (the digest-verifying fetch through the timestamp's meta
entry is abstracted into the outcome), the `verify_role` oracle for
snapshot documents, and the freeze check's wall-clock sample. -/
structure SnapshotEnv where
  fetch_snapshot : FetchOutcome (Signed Snapshot)
  verify_role : Root → Signed Snapshot → Bool
  sysTime : Nat

/-- `load_snapshot` (lib.rs 567-695): require the timestamp's
`snapshot.json` meta entry, fetch and parse the snapshot, require its
version to equal the meta entry's, verify it under the trusted root, then
the rollback check — if a prior `snapshot.json` parses and verifies under
the current root, require `prior.version ≤ new.version`, and if the prior
has a `targets.json` meta entry require the new snapshot to keep one
(`MetaMissing` otherwise) with a version at least the prior entry's.
Then the freeze check, and persist. -/
def load_snapshot (env : SnapshotEnv) (root : Signed Root)
    (timestamp : Signed Timestamp) (ds : Datastore) :
    (Except TufError (Signed Snapshot)) × Datastore :=
  match List.lookup ("snapshot.json") timestamp.signed.meta with
  | none => (.error (.metaMissing ("snapshot.json") .timestamp), ds)
  | some snapshot_meta =>
    match env.fetch_snapshot with
    | .fetchErr e => (.error e, ds)
    | .parseErr => (.error (.parseMetadata .snapshot), ds)
    | .parsed snapshot =>
      if snapshot.signed.version = snapshot_meta.version then
        if env.verify_role root.signed snapshot then
          let rollback : Except TufError Unit :=
            match ds.snapshotFile with
            | some (some old_snapshot) =>
              if env.verify_role root.signed old_snapshot then
                if old_snapshot.signed.version ≤ snapshot.signed.version then
                  match List.lookup ("targets.json")
                      old_snapshot.signed.meta with
                  | some old_targets_meta =>
                    match List.lookup ("targets.json")
                        snapshot.signed.meta with
                    | none =>
                      .error (.metaMissing ("targets.json") .snapshot)
                    | some targets_meta =>
                      if old_targets_meta.version ≤ targets_meta.version then
                        .ok ()
                      else
                        .error (.olderMetadata .targets
                          old_targets_meta.version targets_meta.version)
                  | none => .ok ()
                else
                  .error (.olderMetadata .snapshot
                    old_snapshot.signed.version snapshot.signed.version)
              else .ok ()
            | _ => .ok ()
          match rollback with
          | .error e => (.error e, ds)
          | .ok _ =>
            match check_expired env.sysTime .snapshot
                snapshot.signed.expires ds with
            | (.error e, ds1) => (.error e, ds1)
            | (.ok _, ds1) =>
              (.ok snapshot, { ds1 with snapshotFile := some (some snapshot) })
        else
          (.error (.verifyMetadata .snapshot), ds)
      else
        (.error (.versionMismatch .snapshot snapshot.signed.version
          snapshot_meta.version), ds)

/-- How `load_targets` fetches the targets document (lib.rs 732-751):
`hashes` is the snapshot meta entry's optional SHA-256 — the fetch is the
digest-verifying `fetch_sha256` exactly when it is present, and the plain
`fetch_max_size` otherwise; `sizeCap` and `specifier` are the size bound
and the human label for it. -/
structure TargetsFetchPlan where
  hashes : Option (List Nat)
  sizeCap : Nat
  specifier : String
deriving DecidableEq, Repr

/-- The fetch plan `load_targets` builds from the snapshot's `targets.json`
meta entry and the caller's `max_targets_size` limit (lib.rs 732-751). -/
def targets_fetch_plan (targets_meta : SnapshotFileMeta)
    (max_targets_size : Nat) : TargetsFetchPlan :=
  let size_specifier :=
    match targets_meta.length with
    | some length => (length, "snapshot.json")
    | none => (max_targets_size, "max_targets_size parameter")
  { hashes := targets_meta.hashes
    sizeCap := size_specifier.1
    specifier := size_specifier.2 }

/-- Environment of `load_targets`: the fetch-and-parse outcome as a
function of the fetch plan the code builds, the `verify_role` oracle for
targets documents, and the freeze check's wall-clock sample. -/
structure TargetsEnv where
  fetch_targets : TargetsFetchPlan → FetchOutcome (Signed Targets)
  verify_role : Root → Signed Targets → Bool
  sysTime : Nat

/-- The part of `load_targets` after the fetch (lib.rs 752-817): parse,
require the fetched version to equal the snapshot meta entry's, verify
under the trusted root, rollback check against a prior `targets.json`
(same shape as the timestamp one), freeze check, persist. -/
def load_targets_fetched (env : TargetsEnv) (root : Signed Root)
    (targets_meta : SnapshotFileMeta)
    (outcome : FetchOutcome (Signed Targets)) (ds : Datastore) :
    (Except TufError (Signed Targets)) × Datastore :=
  match outcome with
  | .fetchErr e => (.error e, ds)
  | .parseErr => (.error (.parseMetadata .targets), ds)
  | .parsed targets =>
    if targets.signed.version = targets_meta.version then
      if env.verify_role root.signed targets then
        let rollback : Except TufError Unit :=
          match ds.targetsFile with
          | some (some old_targets) =>
            if env.verify_role root.signed old_targets then
              if old_targets.signed.version ≤ targets.signed.version then
                .ok ()
              else
                .error (.olderMetadata .targets old_targets.signed.version
                  targets.signed.version)
            else .ok ()
          | _ => .ok ()
        match rollback with
        | .error e => (.error e, ds)
        | .ok _ =>
          match check_expired env.sysTime .targets targets.signed.expires
              ds with
          | (.error e, ds1) => (.error e, ds1)
          | (.ok _, ds1) =>
            (.ok targets, { ds1 with targetsFile := some (some targets) })
      else
        (.error (.verifyMetadata .targets), ds)
    else
      (.error (.versionMismatch .targets targets.signed.version
        targets_meta.version), ds)

/-- `load_targets` (lib.rs 698-818): require the snapshot's `targets.json`
meta entry (the code labels the missing-entry error with role
`Timestamp`, lib.rs 721), fetch through the plan built from that entry,
then the post-fetch checks. -/
def load_targets (env : TargetsEnv) (root : Signed Root)
    (snapshot : Signed Snapshot) (max_targets_size : Nat) (ds : Datastore) :
    (Except TufError (Signed Targets)) × Datastore :=
  match List.lookup ("targets.json") snapshot.signed.meta with
  | none => (.error (.metaMissing ("targets.json") .timestamp), ds)
  | some targets_meta =>
    load_targets_fetched env root targets_meta
      (env.fetch_targets (targets_fetch_plan targets_meta max_targets_size))
      ds

/-- One lowercase hexadecimal digit, as `hex::encode` produces. -/
def hexDigit (n : Nat) : Char :=
  if n < 10 then Char.ofNat (48 + n) else Char.ofNat (87 + n)

/-- Two lowercase hexadecimal digits for one byte. -/
def hexByte (b : Nat) : String :=
  String.mk [hexDigit (b / 16), hexDigit (b % 16)]

/-- `hex::encode` of a byte string: lowercase hexadecimal. -/
def hexEncode (bytes : List Nat) : String :=
  String.join (bytes.map hexByte)

/-- The in-memory `Repository` state `read_target` consults (lib.rs
111-120): the consistent-snapshot flag, the earliest expiration over the
four roles with the role attaining it, and the verified targets map. -/
structure Repository where
  consistent_snapshot : Bool
  earliest_expiration : Nat
  earliest_expiration_role : RoleType
  targets : List (String × TargetDesc)
deriving DecidableEq, Repr

/-- Environment of `read_target`: the wall-clock sample of its
`system_time` call and the `url` crate's join of a path onto
`target_base_url` (modelled from the spec, 4.10/4.11: `none` when the
join is invalid). -/
structure ReadTargetEnv where
  sysTime : Nat
  join_target_url : String → Option String

/-- The reader `read_target` returns, described by the `fetch_sha256`
request it would stream (lib.rs 255-264): the joined URL, the size cap,
the specifier label and the expected digest. -/
structure TargetFetchRequest where
  url : String
  sizeCap : Nat
  specifier : String
  sha256 : List Nat
deriving DecidableEq, Repr

/-- `Repository::read_target` (lib.rs 222-268): freeze gate through
`system_time` against `earliest_expiration`; `none` when the name is not
in the targets map; otherwise the hash-prefixed (consistent snapshot) or
plain file name is joined onto `target_base_url` (`JoinUrl` when the join
is invalid) and the document is fetched through `fetch_sha256` with the
descriptor's length and digest and specifier `"targets.json"`. -/
def read_target (env : ReadTargetEnv) (repo : Repository) (name : String)
    (ds : Datastore) :
    (Except TufError (Option TargetFetchRequest)) × Datastore :=
  match system_time env.sysTime ds with
  | (.error e, ds1) => (.error e, ds1)
  | (.ok t, ds1) =>
    if t < repo.earliest_expiration then
      match List.lookup name repo.targets with
      | none => (.ok none, ds1)
      | some target =>
        let file :=
          if repo.consistent_snapshot then
            hexEncode target.sha256 ++ ("." ++ name)
          else name
        match env.join_target_url file with
        | none => (.error (.joinUrl file), ds1)
        | some url =>
          (.ok (some ⟨url, target.length, "targets.json", target.sha256⟩), ds1)
    else
      (.error (.expiredMetadata repo.earliest_expiration_role), ds1)

/-! ## Helper lemmas -/

/-- One `system_time` call never decreases the parseable stored
`latest_known_time`. -/
theorem system_time_stored_mono (t : Nat) (ds : Datastore) (tprev : Nat)
    (h : ds.latestKnownTime = some (some tprev)) :
    ∃ t2, (system_time t ds).2.latestKnownTime = some (some t2) ∧
      tprev ≤ t2 := by
  unfold system_time
  rw [h]
  by_cases hge : t ≥ tprev
  · exact ⟨t, by simp [hge], hge⟩
  · exact ⟨tprev, by simp [hge, h], Nat.le_refl tprev⟩

/-- The stored `latest_known_time` after a whole sequence of `system_time`
calls, successful or failed. -/
def run_system_time (samples : List Nat) (ds : Datastore) : Datastore :=
  samples.foldl (fun d t => (system_time t d).2) ds

theorem run_system_time_stored_mono (samples : List Nat) (ds : Datastore)
    (tprev : Nat) (h : ds.latestKnownTime = some (some tprev)) :
    ∃ t2, (run_system_time samples ds).latestKnownTime = some (some t2) ∧
      tprev ≤ t2 := by
  induction samples generalizing ds tprev with
  | nil => exact ⟨tprev, h, Nat.le_refl tprev⟩
  | cons t rest ih =>
    obtain ⟨t1, h1, hle1⟩ := system_time_stored_mono t ds tprev h
    obtain ⟨t2, h2, hle2⟩ := ih (system_time t ds).2 t1 h1
    exact ⟨t2, h2, Nat.le_trans hle1 hle2⟩

/-- The number of fetch attempts of the root rotation loop is bounded by
the distance from the current version to `originalVersion +
maxRootUpdates`. -/
theorem load_root_loop_count_le (env : RootEnv) (o m : Nat)
    (root : Signed Root) :
    (load_root_loop env o m root).2 ≤ o + m - root.signed.version := by
  refine load_root_loop.induct env o m
    (fun r => (load_root_loop env o m r).2 ≤ o + m - r.signed.version)
    ?_ ?_ ?_ ?_ ?_ ?_ ?_ ?_ root
  · intro x hb e hf
    rw [load_root_loop.eq_def]
    simp only [hf, dif_pos hb]
    try simp
    omega
  · intro x hb hf
    rw [load_root_loop.eq_def]
    simp only [hf, dif_pos hb]
    try simp
    omega
  · intro x hb newRoot hf hv1 hv2 hle heq
    rw [load_root_loop.eq_def]
    simp only [hf, dif_pos hb]
    rw [if_pos hv1, if_pos hv2, dif_pos hle, dif_pos heq]
    try simp
    omega
  · intro x hb newRoot hf hv1 hv2 hle hne ih
    rw [load_root_loop.eq_def]
    simp only [hf, dif_pos hb]
    rw [if_pos hv1, if_pos hv2, dif_pos hle, dif_neg hne]
    try simp
    omega
  · intro x hb newRoot hf hv1 hv2 hnle
    rw [load_root_loop.eq_def]
    simp only [hf, dif_pos hb]
    rw [if_pos hv1, if_pos hv2, dif_neg hnle]
    try simp
    omega
  · intro x hb newRoot hf hv1 hnv2
    rw [load_root_loop.eq_def]
    simp only [hf, dif_pos hb]
    rw [if_pos hv1, if_neg hnv2]
    try simp
    omega
  · intro x hb newRoot hf hnv1
    rw [load_root_loop.eq_def]
    simp only [hf, dif_pos hb]
    rw [if_neg hnv1]
    try simp
    omega
  · intro x hnb
    rw [load_root_loop.eq_def]
    simp only [dif_neg hnb]
    simp

/-- `system_time` touches only `latest_known_time.json`: the trusted
metadata files are preserved. -/
theorem system_time_preserves_files (t : Nat) (ds : Datastore) :
    (system_time t ds).2.timestampFile = ds.timestampFile ∧
    (system_time t ds).2.snapshotFile = ds.snapshotFile ∧
    (system_time t ds).2.targetsFile = ds.targetsFile := by
  unfold system_time
  rcases hds : ds.latestKnownTime with _ | ⟨_ | tprev⟩ <;>
    refine ⟨?_, ?_, ?_⟩ <;> try rfl
  all_goals split <;> first | rfl | (split <;> rfl)

/-! ## Claims -/

/-- C2: For every call to `system_time(datastore)`: if the datastore holds
a parseable `latest_known_time.json` whose value exceeds the sampled
wall-clock time, the call fails with `SystemTimeSteppedBackward` and the
stored value (indeed the whole datastore) is not modified; otherwise the
sample is written to `latest_known_time.json` and returned.  Consequently
the parseable stored `latest_known_time` is non-decreasing across every
sequence of invocations, successful or failed. -/
theorem c2_system_time_step_and_monotonicity :
    (∀ (sysTime tprev : Nat) (ds : Datastore),
        ds.latestKnownTime = some (some tprev) → sysTime < tprev →
        system_time sysTime ds =
          (.error (.systemTimeSteppedBackward sysTime tprev), ds)) ∧
    (∀ (sysTime tprev : Nat) (ds : Datastore),
        ds.latestKnownTime = some (some tprev) → tprev ≤ sysTime →
        system_time sysTime ds =
          (.ok sysTime, { ds with latestKnownTime := some (some sysTime) })) ∧
    (∀ (sysTime : Nat) (ds : Datastore),
        ds.latestKnownTime = none ∨ ds.latestKnownTime = some none →
        system_time sysTime ds =
          (.ok sysTime, { ds with latestKnownTime := some (some sysTime) })) ∧
    (∀ (samples : List Nat) (ds : Datastore) (tprev : Nat),
        ds.latestKnownTime = some (some tprev) →
        ∃ t2,
          (run_system_time samples ds).latestKnownTime = some (some t2) ∧
            tprev ≤ t2) := by
  refine ⟨?_, ?_, ?_, ?_⟩
  · intro sysTime tprev ds h hlt
    unfold system_time
    rw [h]
    simp [Nat.not_le.mpr hlt]
  · intro sysTime tprev ds h hle
    unfold system_time
    rw [h]
    simp [hle]
  · intro sysTime ds h
    unfold system_time
    rcases h with h | h <;> rw [h]
  · exact fun samples ds tprev h => run_system_time_stored_mono samples ds tprev h

/-- Witness for C2 at concrete inputs. -/
theorem c2_witness :
    system_time 3 ⟨some (some 5), none, none, none⟩ =
        (.error (.systemTimeSteppedBackward 3 5),
          ⟨some (some 5), none, none, none⟩) ∧
    system_time 7 ⟨some (some 5), none, none, none⟩ =
        (.ok 7, ⟨some (some 7), none, none, none⟩) ∧
    system_time 7 ⟨none, none, none, none⟩ =
        (.ok 7, ⟨some (some 7), none, none, none⟩) ∧
    (∃ t2,
      (run_system_time [6, 9] ⟨some (some 5), none, none, none⟩).latestKnownTime
          = some (some t2) ∧ 5 ≤ t2) :=
  ⟨c2_system_time_step_and_monotonicity.1 3 5 _ rfl (by decide),
   c2_system_time_step_and_monotonicity.2.1 7 5 _ rfl (by decide),
   c2_system_time_step_and_monotonicity.2.2.1 7 _ (Or.inl rfl),
   c2_system_time_step_and_monotonicity.2.2.2 [6, 9] _ 5 rfl⟩

/-- C10: if `latest_known_time.json` exists but fails to parse,
`system_time` treats it as absent: no error, the backward-step check is
skipped, and the file is overwritten with the freshly sampled wall-clock
time. -/
theorem c10_unparseable_latest_time_ignored (sysTime : Nat) (ds : Datastore)
    (h : ds.latestKnownTime = some none) :
    system_time sysTime ds =
      (.ok sysTime, { ds with latestKnownTime := some (some sysTime) }) := by
  unfold system_time
  rw [h]

/-- C7: the root rotation loop fails with
`MaxUpdatesExceeded{max_root_updates}` when the current trusted root's
version reaches or exceeds the shipped root's version plus
`max_root_updates` — the check made before each fetch — and, started from
the shipped root (so with `originalVersion` equal to its version), it
performs at most `max_root_updates` fetch attempts. -/
theorem c7_max_updates_bound :
    (∀ (env : RootEnv) (o m : Nat) (root : Signed Root),
        o + m ≤ root.signed.version →
        (load_root_loop env o m root).1 =
          .error (.maxUpdatesExceeded m)) ∧
    (∀ (env : RootEnv) (m : Nat) (root0 : Signed Root),
        (load_root_loop env root0.signed.version m root0).2 ≤ m) := by
  constructor
  · intro env o m root h
    rw [load_root_loop.eq_def]
    rw [dif_neg (by omega)]
  · intro env m root0
    have h := load_root_loop_count_le env root0.signed.version m root0
    omega

/-- C6: in the root rotation loop, a fetched candidate whose version is
strictly less than the current trusted root's version fails the load with
`OlderMetadata{role: Root}`, and a candidate whose version equals the
current trusted root's version stops the loop normally without error,
keeping the current root. -/
theorem c6_root_rollback_and_equal_version_stop (env : RootEnv) (o m : Nat)
    (root newRoot : Signed Root)
    (hb : root.signed.version < o + m)
    (hf : env.fetch_root (root.signed.version + 1) = .parsed newRoot)
    (hv1 : env.verify_role root.signed newRoot = true)
    (hv2 : env.verify_role newRoot.signed newRoot = true) :
    (newRoot.signed.version < root.signed.version →
      (load_root_loop env o m root).1 =
        .error (.olderMetadata .root root.signed.version
          newRoot.signed.version)) ∧
    (newRoot.signed.version = root.signed.version →
      (load_root_loop env o m root).1 = .ok root) := by
  constructor
  · intro hlt
    rw [load_root_loop.eq_def]
    simp only [hf, dif_pos hb]
    rw [if_pos hv1, if_pos hv2, dif_neg (by omega)]
  · intro heq
    rw [load_root_loop.eq_def]
    simp only [hf, dif_pos hb]
    rw [if_pos hv1, if_pos hv2, dif_pos (by omega : root.signed.version ≤
      newRoot.signed.version), dif_pos heq.symm]

/-- Witness for C6 at concrete inputs. -/
theorem c6_witness :
    (load_root_loop
        ⟨fun _ => .parsed ⟨⟨3, 10, false, [], []⟩, []⟩, fun _ _ => true, 0,
          true, true⟩
        5 2 ⟨⟨5, 10, false, [], []⟩, []⟩).1 =
      .error (.olderMetadata .root 5 3) ∧
    (load_root_loop
        ⟨fun _ => .parsed ⟨⟨5, 10, false, [], []⟩, []⟩, fun _ _ => true, 0,
          true, true⟩
        5 2 ⟨⟨5, 10, false, [], []⟩, []⟩).1 =
      .ok ⟨⟨5, 10, false, [], []⟩, []⟩ :=
  ⟨(c6_root_rollback_and_equal_version_stop
      ⟨fun _ => .parsed ⟨⟨3, 10, false, [], []⟩, []⟩, fun _ _ => true, 0,
        true, true⟩
      5 2 ⟨⟨5, 10, false, [], []⟩, []⟩ ⟨⟨3, 10, false, [], []⟩, []⟩
      (by decide) rfl rfl rfl).1 (by decide),
   (c6_root_rollback_and_equal_version_stop
      ⟨fun _ => .parsed ⟨⟨5, 10, false, [], []⟩, []⟩, fun _ _ => true, 0,
        true, true⟩
      5 2 ⟨⟨5, 10, false, [], []⟩, []⟩ ⟨⟨5, 10, false, [], []⟩, []⟩
      (by decide) rfl rfl rfl).2 rfl⟩

/-- C3: in the root rotation loop, a transport-layer fetch failure of the
next root version (for any reason) terminates the loop normally, the load
proceeding to the post-loop freeze check with the root kept, whereas a
parse failure, or a signature-verification failure against the current
root's keys or against the candidate's own keys, of a successfully
fetched candidate fails the whole load with `ParseMetadata{role: Root}` or
`VerifyMetadata{role: Root}` respectively. -/
theorem c3_root_fetch_failure_exits_loop (env : RootEnv) (m : Nat)
    (root0 : Signed Root) (ds : Datastore)
    (hsv : env.verify_role root0.signed root0 = true) (hm : 0 < m) :
    (∀ e, env.fetch_root (root0.signed.version + 1) = .fetchErr e →
      load_root env m root0 ds =
        root_post_loop env root0.signed.timestampKeys
          root0.signed.snapshotKeys root0 ds) ∧
    (env.fetch_root (root0.signed.version + 1) = .parseErr →
      load_root env m root0 ds = (.error (.parseMetadata .root), ds)) ∧
    (∀ nr, env.fetch_root (root0.signed.version + 1) = .parsed nr →
      env.verify_role root0.signed nr = false →
      load_root env m root0 ds = (.error (.verifyMetadata .root), ds)) ∧
    (∀ nr, env.fetch_root (root0.signed.version + 1) = .parsed nr →
      env.verify_role root0.signed nr = true →
      env.verify_role nr.signed nr = false →
      load_root env m root0 ds = (.error (.verifyMetadata .root), ds)) := by
  refine ⟨?_, ?_, ?_, ?_⟩
  · intro e hf
    simp only [load_root, if_pos hsv]
    rw [load_root_loop.eq_def]
    simp only [hf, dif_pos (by omega : root0.signed.version <
      root0.signed.version + m)]
  · intro hf
    simp only [load_root, if_pos hsv]
    rw [load_root_loop.eq_def]
    simp only [hf, dif_pos (by omega : root0.signed.version <
      root0.signed.version + m)]
  · intro nr hf hnv
    simp only [load_root, if_pos hsv]
    rw [load_root_loop.eq_def]
    simp only [hf, dif_pos (by omega : root0.signed.version <
      root0.signed.version + m)]
    rw [if_neg (by simp [hnv])]
  · intro nr hf hv1 hnv2
    simp only [load_root, if_pos hsv]
    rw [load_root_loop.eq_def]
    simp only [hf, dif_pos (by omega : root0.signed.version <
      root0.signed.version + m)]
    rw [if_pos hv1, if_neg (by simp [hnv2])]

/-- Witness for C3 at concrete inputs. -/
theorem c3_witness :
    load_root
        ⟨fun _ => .fetchErr .transportFailed, fun _ _ => true, 0, true, true⟩
        2 ⟨⟨5, 10, false, [], []⟩, []⟩ ⟨none, none, none, none⟩ =
      root_post_loop
        ⟨fun _ => .fetchErr .transportFailed, fun _ _ => true, 0, true, true⟩
        [] [] ⟨⟨5, 10, false, [], []⟩, []⟩ ⟨none, none, none, none⟩ ∧
    load_root
        ⟨fun _ => .parseErr, fun _ _ => true, 0, true, true⟩
        2 ⟨⟨5, 10, false, [], []⟩, []⟩ ⟨none, none, none, none⟩ =
      (.error (.parseMetadata .root), ⟨none, none, none, none⟩) ∧
    load_root
        ⟨fun _ => .parsed ⟨⟨6, 10, false, [], []⟩, []⟩,
          fun _ d => decide (d.signed.version = 5), 0, true, true⟩
        2 ⟨⟨5, 10, false, [], []⟩, []⟩ ⟨none, none, none, none⟩ =
      (.error (.verifyMetadata .root), ⟨none, none, none, none⟩) ∧
    load_root
        ⟨fun _ => .parsed ⟨⟨6, 10, false, [], []⟩, []⟩,
          fun r _ => decide (r.version = 5), 0, true, true⟩
        2 ⟨⟨5, 10, false, [], []⟩, []⟩ ⟨none, none, none, none⟩ =
      (.error (.verifyMetadata .root), ⟨none, none, none, none⟩) :=
  ⟨(c3_root_fetch_failure_exits_loop
      ⟨fun _ => .fetchErr .transportFailed, fun _ _ => true, 0, true, true⟩
      2 ⟨⟨5, 10, false, [], []⟩, []⟩ ⟨none, none, none, none⟩ rfl
      (by decide)).1 .transportFailed rfl,
   (c3_root_fetch_failure_exits_loop
      ⟨fun _ => .parseErr, fun _ _ => true, 0, true, true⟩
      2 ⟨⟨5, 10, false, [], []⟩, []⟩ ⟨none, none, none, none⟩ rfl
      (by decide)).2.1 rfl,
   (c3_root_fetch_failure_exits_loop
      ⟨fun _ => .parsed ⟨⟨6, 10, false, [], []⟩, []⟩,
        fun _ d => decide (d.signed.version = 5), 0, true, true⟩
      2 ⟨⟨5, 10, false, [], []⟩, []⟩ ⟨none, none, none, none⟩ rfl
      (by decide)).2.2.1 ⟨⟨6, 10, false, [], []⟩, []⟩ rfl rfl,
   (c3_root_fetch_failure_exits_loop
      ⟨fun _ => .parsed ⟨⟨6, 10, false, [], []⟩, []⟩,
        fun r _ => decide (r.version = 5), 0, true, true⟩
      2 ⟨⟨5, 10, false, [], []⟩, []⟩ ⟨none, none, none, none⟩ rfl
      (by decide)).2.2.2 ⟨⟨6, 10, false, [], []⟩, []⟩ rfl rfl rfl⟩

/-- Witness for C7 at concrete inputs. -/
theorem c7_witness :
    (load_root_loop
        ⟨fun _ => .fetchErr .transportFailed, fun _ _ => true, 0, true, true⟩
        1 2 ⟨⟨5, 10, false, [], []⟩, []⟩).1 =
      .error (.maxUpdatesExceeded 2) ∧
    (load_root_loop
        ⟨fun _ => .fetchErr .transportFailed, fun _ _ => true, 0, true, true⟩
        5 2 ⟨⟨5, 10, false, [], []⟩, []⟩).2 ≤ 2 :=
  ⟨c7_max_updates_bound.1
      ⟨fun _ => .fetchErr .transportFailed, fun _ _ => true, 0, true, true⟩
      1 2 ⟨⟨5, 10, false, [], []⟩, []⟩ (by decide),
   c7_max_updates_bound.2
      ⟨fun _ => .fetchErr .transportFailed, fun _ _ => true, 0, true, true⟩
      2 ⟨⟨5, 10, false, [], []⟩, []⟩⟩

/-- Witness for C10 at concrete inputs. -/
theorem c10_witness :
    system_time 4 ⟨some none, none, none, none⟩ =
      (.ok 4, ⟨some (some 4), none, none, none⟩) :=
  c10_unparseable_latest_time_ignored 4 ⟨some none, none, none, none⟩ rfl

/-- C4: after the rotation loop and freeze check, if and only if the
trusted root's timestamp or snapshot role keys differ from the shipped
root's, both `timestamp.json` and `snapshot.json` are removed from the
datastore; both removals are attempted even if the first one fails, any
removal error is surfaced, and with unchanged key sets the step leaves the
datastore's trusted files untouched. -/
theorem c4_rekey_removes_trusted_files (env : RootEnv) (m : Nat)
    (root0 root : Signed Root) (ds : Datastore) (t : Nat)
    (h1 : env.verify_role root0.signed root0 = true)
    (h2 : (load_root_loop env root0.signed.version m root0).1 = .ok root)
    (h3 : (system_time env.sysTime ds).1 = .ok t)
    (h4 : t < root.signed.expires) :
    ((root0.signed.timestampKeys ≠ root.signed.timestampKeys ∨
      root0.signed.snapshotKeys ≠ root.signed.snapshotKeys) →
      ((env.removeTimestampOk = true → env.removeSnapshotOk = true →
        load_root env m root0 ds =
          (.ok root, { (system_time env.sysTime ds).2 with
            timestampFile := none, snapshotFile := none })) ∧
       (env.removeTimestampOk = false →
        (load_root env m root0 ds).1 =
            .error (.datastoreRemove ("timestamp.json")) ∧
          (env.removeSnapshotOk = true →
            (load_root env m root0 ds).2.snapshotFile = none)) ∧
       (env.removeTimestampOk = true → env.removeSnapshotOk = false →
        (load_root env m root0 ds).1 =
            .error (.datastoreRemove ("snapshot.json")) ∧
          (load_root env m root0 ds).2.timestampFile = none))) ∧
    (¬(root0.signed.timestampKeys ≠ root.signed.timestampKeys ∨
       root0.signed.snapshotKeys ≠ root.signed.snapshotKeys) →
      load_root env m root0 ds = (.ok root, (system_time env.sysTime ds).2) ∧
      (system_time env.sysTime ds).2.timestampFile = ds.timestampFile ∧
      (system_time env.sysTime ds).2.snapshotFile = ds.snapshotFile) := by
  have hload : load_root env m root0 ds =
      root_post_loop env root0.signed.timestampKeys root0.signed.snapshotKeys
        root ds := by
    simp only [load_root, if_pos h1, h2]
  have hce : check_expired env.sysTime .root root.signed.expires ds =
      (.ok (), (system_time env.sysTime ds).2) := by
    unfold check_expired
    rcases hsys : system_time env.sysTime ds with ⟨exc, ds1⟩
    rw [hsys] at h3
    simp only at h3
    subst h3
    simp [if_pos h4]
  have hpost : root_post_loop env root0.signed.timestampKeys
      root0.signed.snapshotKeys root ds =
      (if root0.signed.timestampKeys ≠ root.signed.timestampKeys ∨
          root0.signed.snapshotKeys ≠ root.signed.snapshotKeys then
        (if env.removeTimestampOk then
          (if env.removeSnapshotOk then
            (.ok root, { (system_time env.sysTime ds).2 with
              timestampFile := none, snapshotFile := none })
          else
            (.error (.datastoreRemove ("snapshot.json")),
              { (system_time env.sysTime ds).2 with timestampFile := none }))
        else
          (if env.removeSnapshotOk then
            (.error (.datastoreRemove ("timestamp.json")),
              { (system_time env.sysTime ds).2 with snapshotFile := none })
          else
            (.error (.datastoreRemove ("timestamp.json")),
              (system_time env.sysTime ds).2)))
      else
        (.ok root, (system_time env.sysTime ds).2)) := by
    unfold root_post_loop
    rw [hce]
    rcases hT : env.removeTimestampOk <;> rcases hS : env.removeSnapshotOk <;>
      simp
  rw [hload, hpost]
  constructor
  · intro hk
    rw [if_pos hk]
    refine ⟨?_, ?_, ?_⟩
    · intro hT hS
      rw [if_pos hT, if_pos hS]
    · intro hT
      rw [if_neg (by simp [hT])]
      rcases hS : env.removeSnapshotOk <;> simp
    · intro hT hS
      rw [if_pos hT, if_neg (by simp [hS])]
      exact ⟨rfl, rfl⟩
  · intro hk
    rw [if_neg hk]
    exact ⟨rfl, (system_time_preserves_files env.sysTime ds).1,
      (system_time_preserves_files env.sysTime ds).2.1⟩



/-- Witness for C4 at concrete inputs. -/
theorem c4_witness :
    (load_root
        ⟨fun v => if v = 6 then .parsed ⟨⟨6, 10, false, [], []⟩, []⟩
            else .fetchErr .transportFailed, fun _ _ => true, 1, true, true⟩
        3 ⟨⟨5, 10, false, [⟨"a", "t", "s", [1]⟩], []⟩, []⟩
        ⟨none, some none, some none, none⟩ =
      (.ok ⟨⟨6, 10, false, [], []⟩, []⟩,
        ⟨some (some 1), none, none, none⟩)) ∧
    (load_root
        ⟨fun _ => .fetchErr .transportFailed, fun _ _ => true, 1, true, true⟩
        3 ⟨⟨5, 10, false, [⟨"a", "t", "s", [1]⟩], []⟩, []⟩
        ⟨none, some none, some none, none⟩ =
      (.ok ⟨⟨5, 10, false, [⟨"a", "t", "s", [1]⟩], []⟩, []⟩,
        ⟨some (some 1), some none, some none, none⟩)) :=
  ⟨((c4_rekey_removes_trusted_files
      ⟨fun v => if v = 6 then .parsed ⟨⟨6, 10, false, [], []⟩, []⟩
          else .fetchErr .transportFailed, fun _ _ => true, 1, true, true⟩
      3 ⟨⟨5, 10, false, [⟨"a", "t", "s", [1]⟩], []⟩, []⟩
      ⟨⟨6, 10, false, [], []⟩, []⟩
      ⟨none, some none, some none, none⟩ 1 rfl
      (by simp [load_root_loop.eq_def]) rfl (by decide)).1
      (by decide)).1 rfl rfl,
   ((c4_rekey_removes_trusted_files
      ⟨fun _ => .fetchErr .transportFailed, fun _ _ => true, 1, true, true⟩
      3 ⟨⟨5, 10, false, [⟨"a", "t", "s", [1]⟩], []⟩, []⟩
      ⟨⟨5, 10, false, [⟨"a", "t", "s", [1]⟩], []⟩, []⟩
      ⟨none, some none, some none, none⟩ 1 rfl
      (by simp [load_root_loop.eq_def]) rfl (by decide)).2
      (by decide)).1⟩

/-- The result component of `system_time` depends only on the stored
`latest_known_time`. -/
theorem system_time_fst_congr (t : Nat) (ds1 ds2 : Datastore)
    (h : ds1.latestKnownTime = ds2.latestKnownTime) :
    (system_time t ds1).1 = (system_time t ds2).1 := by
  unfold system_time
  rw [h]
  rcases hds : ds2.latestKnownTime with _ | ⟨_ | x⟩ <;> try rfl
  by_cases hge : t ≥ x
  · simp [hge]
  · simp [hge]

/-- The result component of `check_expired` depends only on the stored
`latest_known_time`. -/
theorem check_expired_fst_congr (t : Nat) (role : RoleType) (expires : Nat)
    (ds1 ds2 : Datastore) (h : ds1.latestKnownTime = ds2.latestKnownTime) :
    (check_expired t role expires ds1).1 =
      (check_expired t role expires ds2).1 := by
  unfold check_expired
  have hst := system_time_fst_congr t ds1 ds2 h
  rcases hs1 : system_time t ds1 with ⟨e1, d1⟩
  rcases hs2 : system_time t ds2 with ⟨e2, d2⟩
  rw [hs1, hs2] at hst
  simp only at hst
  subst hst
  cases e1 with
  | error e => rfl
  | ok a => by_cases hlt : a < expires <;> simp [hlt]

/-- `check_expired` either succeeds or fails with `ExpiredMetadata` for
its role or with `SystemTimeSteppedBackward`. -/
theorem check_expired_error_shape (t : Nat) (role : RoleType)
    (expires : Nat) (ds : Datastore) :
    (check_expired t role expires ds).1 = .ok () ∨
    (check_expired t role expires ds).1 = .error (.expiredMetadata role) ∨
    ∃ a b, (check_expired t role expires ds).1 =
      .error (.systemTimeSteppedBackward a b) := by
  unfold check_expired system_time
  rcases hds : ds.latestKnownTime with _ | ⟨_ | x⟩
  · by_cases hlt : t < expires
    · exact .inl (by simp [hlt])
    · exact .inr (.inl (by simp [hlt]))
  · by_cases hlt : t < expires
    · exact .inl (by simp [hlt])
    · exact .inr (.inl (by simp [hlt]))
  · by_cases hge : t ≥ x
    · by_cases hlt : t < expires
      · exact .inl (by simp [hge, hlt])
      · exact .inr (.inl (by simp [hge, hlt]))
    · exact .inr (.inr ⟨t, x, by simp [hge]⟩)



/-- Timestamp half of the rollback check: with a verifying prior
timestamp in the datastore, `load_timestamp` fails with `OlderMetadata`
exactly when the fetched document's version is below the prior's. -/
theorem load_timestamp_rollback_iff (env : TimestampEnv) (root : Signed Root)
    (ds : Datastore) (tsNew tsOld : Signed Timestamp)
    (hf : env.fetch_timestamp = .parsed tsNew)
    (hv : env.verify_role root.signed tsNew = true)
    (hd : ds.timestampFile = some (some tsOld))
    (hvo : env.verify_role root.signed tsOld = true) :
    ((load_timestamp env root ds).1 =
        .error (.olderMetadata .timestamp tsOld.signed.version
          tsNew.signed.version) ↔
      tsNew.signed.version < tsOld.signed.version) := by
  unfold load_timestamp
  rw [hf]
  simp only [if_pos hv, hd, if_pos hvo]
  by_cases hver : tsOld.signed.version ≤ tsNew.signed.version
  · rw [if_pos hver]
    simp only []
    rcases hce : check_expired env.sysTime .timestamp tsNew.signed.expires ds
      with ⟨exc, ds1⟩
    have hshape := check_expired_error_shape env.sysTime .timestamp
      tsNew.signed.expires ds
    rw [hce] at hshape
    simp only at hshape
    constructor
    · intro hcontra
      rcases hshape with h | h | ⟨a, b, h⟩ <;> subst h <;> simp at hcontra
    · intro hlt
      omega
  · rw [if_neg hver]
    simp only []
    constructor
    · intro _
      omega
    · intro _
      trivial



/-- A prior `timestamp.json` that fails to parse, or fails verification
under the trusted root, is silently ignored: `load_timestamp` returns the
same result as if the prior file were absent. -/
theorem load_timestamp_prior_ignored (env : TimestampEnv)
    (root : Signed Root) (ds : Datastore)
    (h : ds.timestampFile = some none ∨
      ∃ old, ds.timestampFile = some (some old) ∧
        env.verify_role root.signed old = false) :
    (load_timestamp env root ds).1 =
      (load_timestamp env root { ds with timestampFile := none }).1 := by
  unfold load_timestamp
  rcases hf : env.fetch_timestamp with e | _ | tsNew <;> try rfl
  by_cases hv : env.verify_role root.signed tsNew = true
  · rcases h with h | ⟨old, h, hvo⟩
    · simp only [if_pos hv, h]
      rcases hce1 : check_expired env.sysTime .timestamp
        tsNew.signed.expires ds with ⟨e1, d1⟩
      rcases hce2 : check_expired env.sysTime .timestamp
        tsNew.signed.expires { ds with timestampFile := none } with ⟨e2, d2⟩
      have hcongr := check_expired_fst_congr env.sysTime .timestamp
        tsNew.signed.expires ds { ds with timestampFile := none } rfl
      rw [hce1, hce2] at hcongr
      simp only at hcongr
      subst hcongr
      cases e1 <;> rfl
    · simp only [if_pos hv, h, hvo, Bool.false_eq_true, if_false]
      rcases hce1 : check_expired env.sysTime .timestamp
        tsNew.signed.expires ds with ⟨e1, d1⟩
      rcases hce2 : check_expired env.sysTime .timestamp
        tsNew.signed.expires { ds with timestampFile := none } with ⟨e2, d2⟩
      have hcongr := check_expired_fst_congr env.sysTime .timestamp
        tsNew.signed.expires ds { ds with timestampFile := none } rfl
      rw [hce1, hce2] at hcongr
      simp only at hcongr
      subst hcongr
      cases e1 <;> rfl
  · simp only [if_neg hv]



/-- Targets half of the rollback check: with a verifying prior targets
document in the datastore, `load_targets` fails with `OlderMetadata`
exactly when the fetched document's version is below the prior's. -/
theorem load_targets_rollback_iff (env : TargetsEnv) (root : Signed Root)
    (snapshot : Signed Snapshot) (mts : Nat) (ds : Datastore)
    (tgtNew tgtOld : Signed Targets) (M : SnapshotFileMeta)
    (hm : List.lookup ("targets.json") snapshot.signed.meta = some M)
    (hf : env.fetch_targets (targets_fetch_plan M mts) = .parsed tgtNew)
    (hver : tgtNew.signed.version = M.version)
    (hv : env.verify_role root.signed tgtNew = true)
    (hd : ds.targetsFile = some (some tgtOld))
    (hvo : env.verify_role root.signed tgtOld = true) :
    ((load_targets env root snapshot mts ds).1 =
        .error (.olderMetadata .targets tgtOld.signed.version
          tgtNew.signed.version) ↔
      tgtNew.signed.version < tgtOld.signed.version) := by
  unfold load_targets load_targets_fetched
  rw [hm]
  simp only [hf, if_pos hver, if_pos hv, hd, if_pos hvo]
  by_cases hcmp : tgtOld.signed.version ≤ tgtNew.signed.version
  · rw [if_pos hcmp]
    simp only []
    rcases hce : check_expired env.sysTime .targets tgtNew.signed.expires ds
      with ⟨exc, ds1⟩
    have hshape := check_expired_error_shape env.sysTime .targets
      tgtNew.signed.expires ds
    rw [hce] at hshape
    simp only at hshape
    constructor
    · intro hcontra
      rcases hshape with hsh | hsh | ⟨a, b, hsh⟩ <;> subst hsh <;>
        simp at hcontra
    · intro hlt
      omega
  · rw [if_neg hcmp]
    simp only []
    constructor
    · intro _
      omega
    · intro _
      trivial

/-- A prior `targets.json` that fails to parse, or fails verification
under the trusted root, is silently ignored by `load_targets`. -/
theorem load_targets_prior_ignored (env : TargetsEnv) (root : Signed Root)
    (snapshot : Signed Snapshot) (mts : Nat) (ds : Datastore)
    (h : ds.targetsFile = some none ∨
      ∃ old, ds.targetsFile = some (some old) ∧
        env.verify_role root.signed old = false) :
    (load_targets env root snapshot mts ds).1 =
      (load_targets env root snapshot mts { ds with targetsFile := none }).1
    := by
  rcases hm : List.lookup ("targets.json") snapshot.signed.meta with _ | M
  · unfold load_targets
    rw [hm]
  · have hstep1 : load_targets env root snapshot mts ds =
        load_targets_fetched env root M
          (env.fetch_targets (targets_fetch_plan M mts)) ds := by
      unfold load_targets
      rw [hm]
    have hstep2 : load_targets env root snapshot mts
        { ds with targetsFile := none } =
        load_targets_fetched env root M
          (env.fetch_targets (targets_fetch_plan M mts))
          { ds with targetsFile := none } := by
      unfold load_targets
      rw [hm]
    rw [hstep1, hstep2]
    unfold load_targets_fetched
    rcases hfo : env.fetch_targets (targets_fetch_plan M mts)
      with e | _ | tgtNew <;> try rfl
    by_cases hver : tgtNew.signed.version = M.version
    · by_cases hv : env.verify_role root.signed tgtNew = true
      · rcases h with h | ⟨old, h, hvo⟩
        · simp only [if_pos hver, if_pos hv, h]
          rcases hce1 : check_expired env.sysTime .targets
            tgtNew.signed.expires ds with ⟨e1, d1⟩
          rcases hce2 : check_expired env.sysTime .targets
            tgtNew.signed.expires { ds with targetsFile := none }
            with ⟨e2, d2⟩
          have hcongr := check_expired_fst_congr env.sysTime .targets
            tgtNew.signed.expires ds { ds with targetsFile := none } rfl
          rw [hce1, hce2] at hcongr
          simp only at hcongr
          subst hcongr
          cases e1 <;> rfl
        · simp only [if_pos hver, if_pos hv, h, hvo, Bool.false_eq_true,
            if_false]
          rcases hce1 : check_expired env.sysTime .targets
            tgtNew.signed.expires ds with ⟨e1, d1⟩
          rcases hce2 : check_expired env.sysTime .targets
            tgtNew.signed.expires { ds with targetsFile := none }
            with ⟨e2, d2⟩
          have hcongr := check_expired_fst_congr env.sysTime .targets
            tgtNew.signed.expires ds { ds with targetsFile := none } rfl
          rw [hce1, hce2] at hcongr
          simp only at hcongr
          subst hcongr
          cases e1 <;> rfl
      · simp only [if_pos hver, if_neg hv]
    · simp only [if_neg hver]

/-- C1: during the timestamp and targets load phases, if a prior copy of
the role's file exists in the datastore, parses, and passes
signature-threshold verification under the current trusted root, then load
fails with `OlderMetadata{role}` if and only if the newly fetched
document's version is strictly less than the prior's; a prior file that
exists but fails to parse or fails verification is silently ignored — no
error, and no rollback comparison is performed against it. -/
theorem c1_rollback_vs_prior_trusted :
    (∀ (env : TimestampEnv) (root : Signed Root) (ds : Datastore)
        (tsNew tsOld : Signed Timestamp),
        env.fetch_timestamp = .parsed tsNew →
        env.verify_role root.signed tsNew = true →
        ds.timestampFile = some (some tsOld) →
        env.verify_role root.signed tsOld = true →
        ((load_timestamp env root ds).1 =
            .error (.olderMetadata .timestamp tsOld.signed.version
              tsNew.signed.version) ↔
          tsNew.signed.version < tsOld.signed.version)) ∧
    (∀ (env : TimestampEnv) (root : Signed Root) (ds : Datastore),
        (ds.timestampFile = some none ∨
          ∃ old, ds.timestampFile = some (some old) ∧
            env.verify_role root.signed old = false) →
        (load_timestamp env root ds).1 =
          (load_timestamp env root { ds with timestampFile := none }).1) ∧
    (∀ (env : TargetsEnv) (root : Signed Root) (snapshot : Signed Snapshot)
        (mts : Nat) (ds : Datastore) (tgtNew tgtOld : Signed Targets)
        (M : SnapshotFileMeta),
        List.lookup ("targets.json") snapshot.signed.meta = some M →
        env.fetch_targets (targets_fetch_plan M mts) = .parsed tgtNew →
        tgtNew.signed.version = M.version →
        env.verify_role root.signed tgtNew = true →
        ds.targetsFile = some (some tgtOld) →
        env.verify_role root.signed tgtOld = true →
        ((load_targets env root snapshot mts ds).1 =
            .error (.olderMetadata .targets tgtOld.signed.version
              tgtNew.signed.version) ↔
          tgtNew.signed.version < tgtOld.signed.version)) ∧
    (∀ (env : TargetsEnv) (root : Signed Root) (snapshot : Signed Snapshot)
        (mts : Nat) (ds : Datastore),
        (ds.targetsFile = some none ∨
          ∃ old, ds.targetsFile = some (some old) ∧
            env.verify_role root.signed old = false) →
        (load_targets env root snapshot mts ds).1 =
          (load_targets env root snapshot mts
            { ds with targetsFile := none }).1) :=
  ⟨load_timestamp_rollback_iff, load_timestamp_prior_ignored,
   load_targets_rollback_iff, load_targets_prior_ignored⟩

/-- Witness for C1 at concrete inputs. -/
theorem c1_witness :
    ((load_timestamp ⟨.parsed ⟨⟨1, 10, []⟩, []⟩, fun _ _ => true, 0⟩
        ⟨⟨1, 10, false, [], []⟩, []⟩
        ⟨none, some (some ⟨⟨2, 10, []⟩, []⟩), none, none⟩).1 =
      .error (.olderMetadata .timestamp 2 1)) ∧
    ((load_timestamp ⟨.parsed ⟨⟨1, 10, []⟩, []⟩, fun _ _ => true, 0⟩
        ⟨⟨1, 10, false, [], []⟩, []⟩
        ⟨none, some none, none, none⟩).1 =
      (load_timestamp ⟨.parsed ⟨⟨1, 10, []⟩, []⟩, fun _ _ => true, 0⟩
        ⟨⟨1, 10, false, [], []⟩, []⟩ ⟨none, none, none, none⟩).1) ∧
    ((load_targets ⟨fun _ => .parsed ⟨⟨1, 10, []⟩, []⟩, fun _ _ => true, 0⟩
        ⟨⟨1, 10, false, [], []⟩, []⟩
        ⟨⟨1, 10, [(("targets.json"), ⟨1, none, none⟩)]⟩, []⟩ 99
        ⟨none, none, none, some (some ⟨⟨2, 10, []⟩, []⟩)⟩).1 =
      .error (.olderMetadata .targets 2 1)) ∧
    ((load_targets ⟨fun _ => .parsed ⟨⟨1, 10, []⟩, []⟩, fun _ _ => true, 0⟩
        ⟨⟨1, 10, false, [], []⟩, []⟩
        ⟨⟨1, 10, [(("targets.json"), ⟨1, none, none⟩)]⟩, []⟩ 99
        ⟨none, none, none, some none⟩).1 =
      (load_targets ⟨fun _ => .parsed ⟨⟨1, 10, []⟩, []⟩, fun _ _ => true, 0⟩
        ⟨⟨1, 10, false, [], []⟩, []⟩
        ⟨⟨1, 10, [(("targets.json"), ⟨1, none, none⟩)]⟩, []⟩ 99
        ⟨none, none, none, none⟩).1) :=
  ⟨(c1_rollback_vs_prior_trusted.1 ⟨.parsed ⟨⟨1, 10, []⟩, []⟩,
      fun _ _ => true, 0⟩ ⟨⟨1, 10, false, [], []⟩, []⟩
      ⟨none, some (some ⟨⟨2, 10, []⟩, []⟩), none, none⟩
      ⟨⟨1, 10, []⟩, []⟩ ⟨⟨2, 10, []⟩, []⟩ rfl rfl rfl rfl).mpr (by decide),
   c1_rollback_vs_prior_trusted.2.1 ⟨.parsed ⟨⟨1, 10, []⟩, []⟩,
      fun _ _ => true, 0⟩ ⟨⟨1, 10, false, [], []⟩, []⟩
      ⟨none, some none, none, none⟩ (Or.inl rfl),
   (c1_rollback_vs_prior_trusted.2.2.1
      ⟨fun _ => .parsed ⟨⟨1, 10, []⟩, []⟩, fun _ _ => true, 0⟩
      ⟨⟨1, 10, false, [], []⟩, []⟩
      ⟨⟨1, 10, [(("targets.json"), ⟨1, none, none⟩)]⟩, []⟩ 99
      ⟨none, none, none, some (some ⟨⟨2, 10, []⟩, []⟩)⟩
      ⟨⟨1, 10, []⟩, []⟩ ⟨⟨2, 10, []⟩, []⟩ ⟨1, none, none⟩
      rfl rfl rfl rfl rfl rfl).mpr (by decide),
   c1_rollback_vs_prior_trusted.2.2.2
      ⟨fun _ => .parsed ⟨⟨1, 10, []⟩, []⟩, fun _ _ => true, 0⟩
      ⟨⟨1, 10, false, [], []⟩, []⟩
      ⟨⟨1, 10, [(("targets.json"), ⟨1, none, none⟩)]⟩, []⟩ 99
      ⟨none, none, none, some none⟩ (Or.inl rfl)⟩

/-- C5: during snapshot load, if a prior snapshot in the datastore
verifies under the current trusted root and its meta map has a
`targets.json` entry, then the new snapshot must keep a `targets.json`
entry (else `MetaMissing`) whose version is at least the prior entry's
(else `OlderMetadata`); with no `targets.json` entry in the prior, no such
continuity requirement is imposed. -/
theorem c5_snapshot_targets_meta_continuity (env : SnapshotEnv)
    (root : Signed Root) (timestamp : Signed Timestamp) (ds : Datastore)
    (SM : TimestampMeta) (snapNew snapOld : Signed Snapshot)
    (hm : List.lookup ("snapshot.json") timestamp.signed.meta = some SM)
    (hf : env.fetch_snapshot = .parsed snapNew)
    (hver : snapNew.signed.version = SM.version)
    (hv : env.verify_role root.signed snapNew = true)
    (hd : ds.snapshotFile = some (some snapOld))
    (hvo : env.verify_role root.signed snapOld = true)
    (hle : snapOld.signed.version ≤ snapNew.signed.version) :
    (∀ oldT, List.lookup ("targets.json") snapOld.signed.meta = some oldT →
      (List.lookup ("targets.json") snapNew.signed.meta = none →
        (load_snapshot env root timestamp ds).1 =
          .error (.metaMissing ("targets.json") .snapshot)) ∧
      (∀ newT,
        List.lookup ("targets.json") snapNew.signed.meta = some newT →
        (newT.version < oldT.version →
          (load_snapshot env root timestamp ds).1 =
            .error (.olderMetadata .targets oldT.version newT.version)) ∧
        (oldT.version ≤ newT.version →
          (load_snapshot env root timestamp ds).1 =
            (load_snapshot env root timestamp
              { ds with snapshotFile := none }).1))) ∧
    (List.lookup ("targets.json") snapOld.signed.meta = none →
      (load_snapshot env root timestamp ds).1 =
        (load_snapshot env root timestamp
          { ds with snapshotFile := none }).1) := by
  constructor
  · intro oldT hold
    constructor
    · intro hnone
      unfold load_snapshot
      rw [hm]
      simp only [hf, if_pos hver, if_pos hv, hd, if_pos hvo, if_pos hle,
        hold, hnone]
    · intro newT hnew
      constructor
      · intro hlt
        unfold load_snapshot
        rw [hm]
        simp only [hf, if_pos hver, if_pos hv, hd, if_pos hvo, if_pos hle,
          hold, hnew, if_neg (by omega : ¬ oldT.version ≤ newT.version)]
      · intro hge
        unfold load_snapshot
        rw [hm]
        simp only [hf, if_pos hver, if_pos hv, hd, if_pos hvo, if_pos hle,
          hold, hnew, if_pos hge]
        rcases hce1 : check_expired env.sysTime .snapshot
          snapNew.signed.expires ds with ⟨e1, d1⟩
        rcases hce2 : check_expired env.sysTime .snapshot
          snapNew.signed.expires { ds with snapshotFile := none }
          with ⟨e2, d2⟩
        have hcongr := check_expired_fst_congr env.sysTime .snapshot
          snapNew.signed.expires ds { ds with snapshotFile := none } rfl
        rw [hce1, hce2] at hcongr
        simp only at hcongr
        subst hcongr
        cases e1 <;> rfl
  · intro hnone
    unfold load_snapshot
    rw [hm]
    simp only [hf, if_pos hver, if_pos hv, hd, if_pos hvo, if_pos hle,
      hnone]
    rcases hce1 : check_expired env.sysTime .snapshot
      snapNew.signed.expires ds with ⟨e1, d1⟩
    rcases hce2 : check_expired env.sysTime .snapshot
      snapNew.signed.expires { ds with snapshotFile := none }
      with ⟨e2, d2⟩
    have hcongr := check_expired_fst_congr env.sysTime .snapshot
      snapNew.signed.expires ds { ds with snapshotFile := none } rfl
    rw [hce1, hce2] at hcongr
    simp only at hcongr
    subst hcongr
    cases e1 <;> rfl



/-- Witness for C5 at concrete inputs. -/
theorem c5_witness :
    ((load_snapshot ⟨.parsed ⟨⟨1, 10, []⟩, []⟩, fun _ _ => true, 0⟩
        ⟨⟨1, 10, false, [], []⟩, []⟩
        ⟨⟨1, 10, [(("snapshot.json"), ⟨1, 5, []⟩)]⟩, []⟩
        ⟨none, none,
          some (some ⟨⟨1, 10, [(("targets.json"), ⟨1, none, none⟩)]⟩, []⟩),
          none⟩).1 =
      .error (.metaMissing ("targets.json") .snapshot)) ∧
    ((load_snapshot
        ⟨.parsed ⟨⟨1, 10, [(("targets.json"), ⟨1, none, none⟩)]⟩, []⟩,
          fun _ _ => true, 0⟩
        ⟨⟨1, 10, false, [], []⟩, []⟩
        ⟨⟨1, 10, [(("snapshot.json"), ⟨1, 5, []⟩)]⟩, []⟩
        ⟨none, none,
          some (some ⟨⟨1, 10, [(("targets.json"), ⟨2, none, none⟩)]⟩, []⟩),
          none⟩).1 =
      .error (.olderMetadata .targets 2 1)) ∧
    ((load_snapshot ⟨.parsed ⟨⟨1, 10, []⟩, []⟩, fun _ _ => true, 0⟩
        ⟨⟨1, 10, false, [], []⟩, []⟩
        ⟨⟨1, 10, [(("snapshot.json"), ⟨1, 5, []⟩)]⟩, []⟩
        ⟨none, none, some (some ⟨⟨1, 10, []⟩, []⟩), none⟩).1 =
      (load_snapshot ⟨.parsed ⟨⟨1, 10, []⟩, []⟩, fun _ _ => true, 0⟩
        ⟨⟨1, 10, false, [], []⟩, []⟩
        ⟨⟨1, 10, [(("snapshot.json"), ⟨1, 5, []⟩)]⟩, []⟩
        ⟨none, none, none, none⟩).1) :=
  ⟨((c5_snapshot_targets_meta_continuity
      ⟨.parsed ⟨⟨1, 10, []⟩, []⟩, fun _ _ => true, 0⟩
      ⟨⟨1, 10, false, [], []⟩, []⟩
      ⟨⟨1, 10, [(("snapshot.json"), ⟨1, 5, []⟩)]⟩, []⟩
      ⟨none, none,
        some (some ⟨⟨1, 10, [(("targets.json"), ⟨1, none, none⟩)]⟩, []⟩),
        none⟩
      ⟨1, 5, []⟩ ⟨⟨1, 10, []⟩, []⟩
      ⟨⟨1, 10, [(("targets.json"), ⟨1, none, none⟩)]⟩, []⟩
      rfl rfl rfl rfl rfl rfl (by decide)).1 ⟨1, none, none⟩ rfl).1 rfl,
   (((c5_snapshot_targets_meta_continuity
      ⟨.parsed ⟨⟨1, 10, [(("targets.json"), ⟨1, none, none⟩)]⟩, []⟩,
        fun _ _ => true, 0⟩
      ⟨⟨1, 10, false, [], []⟩, []⟩
      ⟨⟨1, 10, [(("snapshot.json"), ⟨1, 5, []⟩)]⟩, []⟩
      ⟨none, none,
        some (some ⟨⟨1, 10, [(("targets.json"), ⟨2, none, none⟩)]⟩, []⟩),
        none⟩
      ⟨1, 5, []⟩ ⟨⟨1, 10, [(("targets.json"), ⟨1, none, none⟩)]⟩, []⟩
      ⟨⟨1, 10, [(("targets.json"), ⟨2, none, none⟩)]⟩, []⟩
      rfl rfl rfl rfl rfl rfl (by decide)).1 ⟨2, none, none⟩ rfl).2
      ⟨1, none, none⟩ rfl).1 (by decide),
   (c5_snapshot_targets_meta_continuity
      ⟨.parsed ⟨⟨1, 10, []⟩, []⟩, fun _ _ => true, 0⟩
      ⟨⟨1, 10, false, [], []⟩, []⟩
      ⟨⟨1, 10, [(("snapshot.json"), ⟨1, 5, []⟩)]⟩, []⟩
      ⟨none, none, some (some ⟨⟨1, 10, []⟩, []⟩), none⟩
      ⟨1, 5, []⟩ ⟨⟨1, 10, []⟩, []⟩ ⟨⟨1, 10, []⟩, []⟩
      rfl rfl rfl rfl rfl rfl (by decide)).2 rfl⟩

/-- C8: during targets load, the targets document is fetched through the
digest-verifying reader exactly when the snapshot's `targets.json` meta
entry has hashes (the plan's `hashes` field mirrors the entry's), with
size cap the entry's length and specifier `"snapshot.json"` when the
length is present, and the caller's `max_targets_size` limit with
specifier `"max_targets_size parameter"` otherwise; `load_targets`
performs its fetch through exactly this plan. -/
theorem c8_targets_fetch_plan_selection :
    (∀ (M : SnapshotFileMeta) (mts : Nat),
        (targets_fetch_plan M mts).hashes = M.hashes) ∧
    (∀ (M : SnapshotFileMeta) (mts l : Nat), M.length = some l →
        (targets_fetch_plan M mts).sizeCap = l ∧
        (targets_fetch_plan M mts).specifier = "snapshot.json") ∧
    (∀ (M : SnapshotFileMeta) (mts : Nat), M.length = none →
        (targets_fetch_plan M mts).sizeCap = mts ∧
        (targets_fetch_plan M mts).specifier =
          "max_targets_size parameter") ∧
    (∀ (env : TargetsEnv) (root : Signed Root) (snapshot : Signed Snapshot)
        (mts : Nat) (ds : Datastore) (M : SnapshotFileMeta),
        List.lookup ("targets.json") snapshot.signed.meta = some M →
        load_targets env root snapshot mts ds =
          load_targets_fetched env root M
            (env.fetch_targets (targets_fetch_plan M mts)) ds) := by
  refine ⟨?_, ?_, ?_, ?_⟩
  · intro M mts
    rfl
  · intro M mts l h
    unfold targets_fetch_plan
    rw [h]
    exact ⟨rfl, rfl⟩
  · intro M mts h
    unfold targets_fetch_plan
    rw [h]
    exact ⟨rfl, rfl⟩
  · intro env root snapshot mts ds M hm
    unfold load_targets
    rw [hm]

/-- Witness for C8 at concrete inputs. -/
theorem c8_witness :
    (targets_fetch_plan ⟨1, some 7, some [1, 2]⟩ 99).hashes = some [1, 2] ∧
    (targets_fetch_plan ⟨1, some 7, some [1, 2]⟩ 99).sizeCap = 7 ∧
    (targets_fetch_plan ⟨1, some 7, some [1, 2]⟩ 99).specifier =
      "snapshot.json" ∧
    (targets_fetch_plan ⟨1, none, none⟩ 99).hashes = none ∧
    (targets_fetch_plan ⟨1, none, none⟩ 99).sizeCap = 99 ∧
    (targets_fetch_plan ⟨1, none, none⟩ 99).specifier =
      "max_targets_size parameter" ∧
    load_targets ⟨fun _ => .parseErr, fun _ _ => true, 0⟩
        ⟨⟨1, 10, false, [], []⟩, []⟩
        ⟨⟨1, 10, [(("targets.json"), ⟨1, none, none⟩)]⟩, []⟩ 99
        ⟨none, none, none, none⟩ =
      load_targets_fetched ⟨fun _ => .parseErr, fun _ _ => true, 0⟩
        ⟨⟨1, 10, false, [], []⟩, []⟩ ⟨1, none, none⟩ .parseErr
        ⟨none, none, none, none⟩ :=
  ⟨c8_targets_fetch_plan_selection.1 ⟨1, some 7, some [1, 2]⟩ 99,
   (c8_targets_fetch_plan_selection.2.1 ⟨1, some 7, some [1, 2]⟩ 99 7
      rfl).1,
   (c8_targets_fetch_plan_selection.2.1 ⟨1, some 7, some [1, 2]⟩ 99 7
      rfl).2,
   c8_targets_fetch_plan_selection.1 ⟨1, none, none⟩ 99,
   (c8_targets_fetch_plan_selection.2.2.1 ⟨1, none, none⟩ 99 rfl).1,
   (c8_targets_fetch_plan_selection.2.2.1 ⟨1, none, none⟩ 99 rfl).2,
   c8_targets_fetch_plan_selection.2.2.2 ⟨fun _ => .parseErr,
      fun _ _ => true, 0⟩ ⟨⟨1, 10, false, [], []⟩, []⟩
      ⟨⟨1, 10, [(("targets.json"), ⟨1, none, none⟩)]⟩, []⟩ 99
      ⟨none, none, none, none⟩ ⟨1, none, none⟩ rfl⟩

/-- C9: `read_target` first runs the freeze gate, failing with
`ExpiredMetadata{earliest_expiration_role}` unless the `system_time`
sample is strictly before `earliest_expiration`; a name absent from the
targets map yields `Ok(None)`; otherwise the path is
`"{hex(sha256)}.{name}"` under consistent snapshots and `name` otherwise,
joined onto the target base URL (`JoinUrl` when the join is invalid), and
the returned reader is `fetch_sha256` with the descriptor's length and
SHA-256 and specifier `"targets.json"`. -/
theorem c9_read_target_behaviour (env : ReadTargetEnv) (repo : Repository)
    (name : String) (ds : Datastore) (t : Nat)
    (hst : (system_time env.sysTime ds).1 = .ok t) :
    (¬ t < repo.earliest_expiration →
      (read_target env repo name ds).1 =
        .error (.expiredMetadata repo.earliest_expiration_role)) ∧
    (t < repo.earliest_expiration →
      (List.lookup name repo.targets = none →
        read_target env repo name ds =
          (.ok none, (system_time env.sysTime ds).2)) ∧
      (∀ target, List.lookup name repo.targets = some target →
        (env.join_target_url (if repo.consistent_snapshot then
            hexEncode target.sha256 ++ ("." ++ name) else name) = none →
          (read_target env repo name ds).1 =
            .error (.joinUrl (if repo.consistent_snapshot then
              hexEncode target.sha256 ++ ("." ++ name) else name))) ∧
        (∀ url, env.join_target_url (if repo.consistent_snapshot then
            hexEncode target.sha256 ++ ("." ++ name) else name) =
              some url →
          (read_target env repo name ds).1 =
            .ok (some ⟨url, target.length, "targets.json",
              target.sha256⟩)))) := by
  unfold read_target
  rcases hsys : system_time env.sysTime ds with ⟨exc, ds1⟩
  rw [hsys] at hst
  simp only at hst
  subst hst
  constructor
  · intro hexp
    simp only [if_neg hexp]
  · intro hexp
    constructor
    · intro hlook
      simp only [if_pos hexp, hlook]
    · intro target hlook
      constructor
      · intro hjoin
        simp only [if_pos hexp, hlook, hjoin]
      · intro url hjoin
        simp only [if_pos hexp, hlook, hjoin]

/-- Witness for C9 at concrete inputs. -/
theorem c9_witness :
    ((read_target ⟨99, fun p => some (("https://t/") ++ p)⟩
        ⟨true, 10, .targets, [(("hello.txt"), ⟨5, [171]⟩)]⟩ ("hello.txt")
        ⟨none, none, none, none⟩).1 =
      .error (.expiredMetadata .targets)) ∧
    (read_target ⟨3, fun p => some (("https://t/") ++ p)⟩
        ⟨true, 10, .targets, [(("hello.txt"), ⟨5, [171]⟩)]⟩ ("nope.txt")
        ⟨none, none, none, none⟩ =
      (.ok none, ⟨some (some 3), none, none, none⟩)) ∧
    ((read_target ⟨3, fun p => some (("https://t/") ++ p)⟩
        ⟨true, 10, .targets, [(("hello.txt"), ⟨5, [171]⟩)]⟩ ("hello.txt")
        ⟨none, none, none, none⟩).1 =
      .ok (some ⟨"https://t/ab.hello.txt", 5, "targets.json", [171]⟩)) ∧
    ((read_target ⟨3, fun _ => none⟩
        ⟨true, 10, .targets, [(("hello.txt"), ⟨5, [171]⟩)]⟩ ("hello.txt")
        ⟨none, none, none, none⟩).1 =
      .error (.joinUrl ("ab.hello.txt"))) :=
  ⟨(c9_read_target_behaviour ⟨99, fun p => some (("https://t/") ++ p)⟩
      ⟨true, 10, .targets, [(("hello.txt"), ⟨5, [171]⟩)]⟩ ("hello.txt")
      ⟨none, none, none, none⟩ 99 rfl).1 (by decide),
   ((c9_read_target_behaviour ⟨3, fun p => some (("https://t/") ++ p)⟩
      ⟨true, 10, .targets, [(("hello.txt"), ⟨5, [171]⟩)]⟩ ("nope.txt")
      ⟨none, none, none, none⟩ 3 rfl).2 (by decide)).1 rfl,
   (((c9_read_target_behaviour ⟨3, fun p => some (("https://t/") ++ p)⟩
      ⟨true, 10, .targets, [(("hello.txt"), ⟨5, [171]⟩)]⟩ ("hello.txt")
      ⟨none, none, none, none⟩ 3 rfl).2 (by decide)).2 ⟨5, [171]⟩ rfl).2
      ("https://t/ab.hello.txt") rfl,
   (((c9_read_target_behaviour ⟨3, fun _ => none⟩
      ⟨true, 10, .targets, [(("hello.txt"), ⟨5, [171]⟩)]⟩ ("hello.txt")
      ⟨none, none, none, none⟩ 3 rfl).2 (by decide)).2 ⟨5, [171]⟩ rfl).1
      rfl⟩

end Tough
